import Mathlib

/-!
Verification development for the VesperNet Crossbridge PPP bridge.

The definitions below are shallow embeddings of the Python sources
(crossbridge.py, modem_utils.py, serial_utils.py).  Byte strings are
modelled as `List Nat` (one entry per byte), text as `String`/`List Char`.
Wall-clock behaviour (sleeps, socket deadlines) is modelled by explicit
boolean/numeric parameters that record what the corresponding system call
observed, as noted at each definition.
-/

namespace Crossbridge

/-- ASCII/UTF-8 byte encoding of a string (all strings involved are ASCII,
where Python `str.encode()` agrees with codepoint values). -/
def asciiBytes (s : String) : List Nat := s.data.map Char.toNat

/-- The bytes of `b"\r\nNO CARRIER\r\n"`. -/
def noCarrierBytes : List Nat := asciiBytes "\r\nNO CARRIER\r\n"

/-- The bytes of `b"\r\nOK\r\n"`. -/
def okBytes : List Nat := asciiBytes "\r\nOK\r\n"

/-- The bytes of `b"+++"` (0x2B is the plus sign). -/
def pppSeq : List Nat := [43, 43, 43]

/-- Python slice `l[-n:]`: the last `n` elements (all of `l` when shorter). -/
def lastN (n : Nat) (l : List Nat) : List Nat := l.drop (l.length - n)

/-- Python substring test `pat in l` (on bytes or text): some drop of `l`
starts with `pat`. -/
def containsSeq [BEq α] (pat : List α) : List α → Bool
  | [] => pat.isPrefixOf []
  | x :: xs => pat.isPrefixOf (x :: xs) || containsSeq pat xs

/-- Python `bytes.rfind` as the largest index `i ≤ n` with `p i`, searching
downwards from `n`. -/
def rfindAux (p : Nat → Bool) : Nat → Option Nat
  | 0 => if p 0 then some 0 else none
  | n + 1 => if p (n + 1) then some (n + 1) else rfindAux p n

/-- `l.rfind(pat)`: the largest start index of an occurrence of `pat` in `l`
(`none` models Python's `-1`). -/
def rfindSeq (l pat : List Nat) : Option Nat :=
  rfindAux (fun i => pat.isPrefixOf (l.drop i)) l.length

/-- crossbridge.bridge_ppp_connection, serial-side escape-buffer update for one
nonempty chunk read from the serial port:
`escape_buffer += data; if len(escape_buffer) > 20: escape_buffer = escape_buffer[-20:]`. -/
def escBufUpdate (escapeBuffer data : List Nat) : List Nat :=
  let b := escapeBuffer ++ data
  if b.length > 20 then lastN 20 b else b

/-- crossbridge.bridge_ppp_connection, escape test on the updated buffer:
`if b"+++" in escape_buffer[-10:]: plus_index = escape_buffer.rfind(b"+++");
if plus_index >= 0: remaining = escape_buffer[plus_index + 3:]; if len(remaining) == 0: ...`. -/
def escapeTrigger (escapeBuffer : List Nat) : Bool :=
  if containsSeq pppSeq (lastN 10 escapeBuffer) then
    match rfindSeq escapeBuffer pppSeq with
    | some plusIndex => decide ((escapeBuffer.drop (plusIndex + 3)).length = 0)
    | none => false
  else false

/-- One serial-read step of crossbridge.bridge_ppp_connection with a nonempty
chunk `data`: the buffer is updated and, when the escape test fires, the code
sleeps 1 second and re-checks `serial_port.in_waiting`; `quiet` records that
`in_waiting == 0` held after that sleep.  The result is `true` exactly when the
step returns "COMMAND_MODE" (after writing `b"\r\nOK\r\n"`). -/
def serialEscapeStep (escapeBuffer data : List Nat) (quiet : Bool) : Bool :=
  escapeTrigger (escBufUpdate escapeBuffer data) && quiet

/-- Result of one serial-read step of modem_utils.ModemEmulator._bridge_serial_to_socket. -/
structure EmuSerialStepResult where
  escaped : Bool
  escapeBuffer : List Nat
  deriving DecidableEq

/-- One serial-read step of modem_utils.ModemEmulator._bridge_serial_to_socket
with a nonempty chunk `data`:
`escape_buffer += data; if b"+++" in escape_buffer: <enter command mode, stop>;
if len(escape_buffer) > 10: escape_buffer = escape_buffer[-10:]`.
There is no quiet-interval wait and no trailing-position requirement. -/
def emuSerialToSocketStep (escapeBuffer data : List Nat) : EmuSerialStepResult :=
  let buf := escapeBuffer ++ data
  if containsSeq pppSeq buf then { escaped := true, escapeBuffer := buf }
  else { escaped := false, escapeBuffer := if buf.length > 10 then lastN 10 buf else buf }

/-! ### Bridge teardown (crossbridge.bridge_ppp_connection exit paths) -/

/-- The ways the main loop of crossbridge.bridge_ppp_connection stops. -/
inductive BridgeExit where
  /-- trailing `+++` with a quiet second: writes OK and returns "COMMAND_MODE" -/
  | escapeQuiet
  /-- `FF 03 C0 21 05/06` seen in a server read: NO CARRIER already written, break -/
  | lcpTerminate
  /-- `recv` returned `b''`: NO CARRIER written, break -/
  | serverClosed
  /-- watchdog: NO CARRIER written, break -/
  | inactivity
  /-- five consecutive read errors: break without writing -/
  | tooManyErrors
  deriving DecidableEq

/-- What crossbridge.bridge_ppp_connection leaves behind for one exit path:
its returned string, the serial writes made on that path, and whether
`socket_connection.close()` ran. -/
structure BridgeReturn where
  result : String
  serialWrites : List (List Nat)
  socketClosed : Bool
  deriving DecidableEq

/-- Exit behaviour of crossbridge.bridge_ppp_connection.  Each branch records
the writes and return value of the corresponding exit path of the source; the
`finally:` block then runs `socket_connection.close()` on every path, including
the `return "COMMAND_MODE"` one, which is why `socketClosed` is forced to
`true` at the end. -/
def bridgeFinish (e : BridgeExit) : BridgeReturn :=
  let base : BridgeReturn :=
    match e with
    | .escapeQuiet => { result := "COMMAND_MODE", serialWrites := [okBytes], socketClosed := false }
    | .lcpTerminate => { result := "DISCONNECT", serialWrites := [noCarrierBytes], socketClosed := false }
    | .serverClosed => { result := "DISCONNECT", serialWrites := [noCarrierBytes], socketClosed := false }
    | .inactivity => { result := "DISCONNECT", serialWrites := [noCarrierBytes], socketClosed := false }
    | .tooManyErrors => { result := "DISCONNECT", serialWrites := [], socketClosed := false }
  { base with socketClosed := true }

/-- Modem-emulation state kept by crossbridge.emulate_modem around a call to
bridge_ppp_connection (the caller entered with `connected = true` and
`socket_connection` set). `socketRef` is `socket_connection is not None`;
`socketOpen` is whether the underlying socket has not been closed by anyone. -/
structure EmuConnState where
  connected : Bool
  inCommandMode : Bool
  socketRef : Bool
  socketOpen : Bool
  deriving DecidableEq

/-- crossbridge.emulate_modem after `bridge_result = bridge_ppp_connection(...)`:
on "COMMAND_MODE" it keeps `connected` and the socket reference and only sets
`in_command_mode = True`; on any other result it closes the socket again and
clears the connection state.  Either way the socket itself is already closed,
because bridge_ppp_connection's `finally:` closed it (see `bridgeFinish`). -/
def emulateModemAfterBridge (e : BridgeExit) : EmuConnState :=
  let br := bridgeFinish e
  if br.result = "COMMAND_MODE" then
    { connected := true, inCommandMode := true, socketRef := true, socketOpen := !br.socketClosed }
  else
    { connected := false, inCommandMode := true, socketRef := false, socketOpen := false }

/-- Teardown of modem_utils.ModemEmulator after its bridge tasks stop.
On the escape path `_bridge_serial_to_socket` runs
`self.connection_state.in_command_mode = True; self.connection_state.connected = False`
and `_bridge_ppp_data` then returns without closing the socket and without
writing anything; on every other path `_bridge_ppp_data` closes the socket and
writes `b"\r\nNO CARRIER\r\n"`. -/
structure EmuBridgeState where
  connected : Bool
  inCommandMode : Bool
  socketClosed : Bool
  serialWrites : List (List Nat)
  deriving DecidableEq

/-- modem_utils._bridge_ppp_data teardown, selected by whether the stop was the
serial-side `+++` escape. -/
def emuBridgeFinish (escapeToCommand : Bool) : EmuBridgeState :=
  if escapeToCommand then
    { connected := false, inCommandMode := true, socketClosed := false, serialWrites := [] }
  else
    { connected := false, inCommandMode := true, socketClosed := true, serialWrites := [noCarrierBytes] }

/-! ### Server-to-serial direction and LCP-terminate detection -/

/-- `b"\xff\x03\xc0\x21\x05"` (LCP Terminate-Request behind the PPP header). -/
def lcpTermReq : List Nat := [255, 3, 192, 33, 5]

/-- `b"\xff\x03\xc0\x21\x06"` (LCP Terminate-Ack behind the PPP header). -/
def lcpTermAck : List Nat := [255, 3, 192, 33, 6]

/-- Effect of one socket-read attempt in a bridge loop: the serial writes it
performed, in order, and whether the loop stopped. -/
structure ServerStepResult where
  serialWrites : List (List Nat)
  stop : Bool
  deriving DecidableEq

/-- One socket-read step of crossbridge.bridge_ppp_connection's server
direction.  `recvd = none` models `socket.timeout`; `some []` models `recv`
returning `b''` (orderly close); `some data` with nonempty `data` is a read.
On a read holding an LCP terminate pattern the code writes the data, sleeps
0.5 s, writes `b"\r\nNO CARRIER\r\n"` and breaks; otherwise it forwards the
data and continues. -/
def serverToSerialStep (recvd : Option (List Nat)) : ServerStepResult :=
  match recvd with
  | none => { serialWrites := [], stop := false }
  | some [] => { serialWrites := [noCarrierBytes], stop := true }
  | some data =>
    if containsSeq lcpTermReq data || containsSeq lcpTermAck data then
      { serialWrites := [data, noCarrierBytes], stop := true }
    else
      { serialWrites := [data], stop := false }

/-! ### Compression codec (modem_utils.SimpleCompression over an opaque zlib) -/

/-- The zlib pair used by SimpleCompression, kept opaque (the spec treats the
codec as an external collaborator).  `decomp` returns `none` when
`zlib.decompress` raises.  The two contract fields record documented zlib
behaviour: decompression inverts compression, and `zlib.compress` never
returns an empty byte string. -/
structure Codec where
  comp : List Nat → List Nat
  decomp : List Nat → Option (List Nat)
  decomp_comp : ∀ d, decomp (comp d) = some d
  comp_ne : ∀ d, comp d ≠ []

/-- modem_utils.SimpleCompression.compress_data.  `enabled` is
`self.compression_enabled`.  The Python size test
`len(compressed) < len(data) * 0.8` is modelled by the exact rational
comparison `5 * len(compressed) < 4 * len(data)`. -/
def compress_data (z : Codec) (enabled : Bool) (data : List Nat) : List Nat :=
  if !enabled || data.length < 64 then data
  else if 5 * (z.comp data).length < 4 * data.length then [27, 67] ++ z.comp data
  else data

/-- modem_utils.SimpleCompression.decompress_data:
inputs shorter than 3 bytes pass through; a `1B 43` prefix selects
`zlib.decompress` on the remainder (errors fall back to returning the input);
anything else passes through. -/
def decompress_data (z : Codec) (data : List Nat) : List Nat :=
  if data.length < 3 then data
  else if data.take 2 = [27, 67] then
    match z.decomp (data.drop 2) with
    | some d => d
    | none => data
  else data

/-- A concrete lossless codec (prepend one byte / drop one byte), used to
evaluate the SimpleCompression wrapper on explicit inputs. -/
def consCodec : Codec where
  comp d := 0 :: d
  decomp l := match l with | [] => none | _ :: t => some t
  decomp_comp _ := rfl
  comp_ne _ := by simp

/-- A second concrete lossless codec (tag with a leading 1; anything untagged
fails to decode), used to exercise decompress_data's error fallback, the
branch where `zlib.decompress` raises and the input is returned unchanged. -/
def tagCodec : Codec where
  comp d := 1 :: d
  decomp l := match l with | 1 :: t => some t | _ => none
  decomp_comp _ := rfl
  comp_ne _ := by simp

/-- One socket-read step of modem_utils.ModemEmulator._bridge_socket_to_serial:
`data = await socket_transport.read()`; nonempty data is decompressed and
forwarded, with no scan of any kind; empty data stops the loop only when the
socket liveness probe fails (`alive`), else the loop sleeps and continues. -/
def emuSocketToSerialStep (z : Codec) (data : List Nat) (alive : Bool) : ServerStepResult :=
  if data ≠ [] then { serialWrites := [decompress_data z data], stop := false }
  else if !alive then { serialWrites := [], stop := true }
  else { serialWrites := [], stop := false }

/-! ### Credential handshake -/

/-- The bytes of `b"Authentication failed"`. -/
def authFailPattern : List Nat := asciiBytes "Authentication failed"

/-- The exact first bytes sent to the server by all three handshake sites
(modem_utils._authenticate, crossbridge.emulate_modem, crossbridge.main). -/
def authLineBytes (username password : String) : List Nat :=
  asciiBytes (username ++ ":" ++ password ++ "\r\n")

/-- The `recv` size used by the handshake reads. -/
def authRecvLimit : Nat := 1024

/-- Read deadline (seconds) of modem_utils.ModemEmulator._authenticate:
`asyncio.wait_for(socket_transport.read(1024), timeout=2.0)`. -/
def emulatorAuthRecvTimeout : Nat := 2

/-- Read deadline (seconds) of the handshake in crossbridge.emulate_modem:
`socket_connection.settimeout(2)` before `recv(1024)`. -/
def emulateModemAuthRecvTimeout : Nat := 2

/-- Read deadline (seconds) of the direct-mode handshake in crossbridge.main:
`socket_connection.settimeout(5)` before `recv(1024)`. -/
def mainAuthRecvTimeout : Nat := 5

/-- Outcome of the credential check, identical at all three sites:
`none` models a read timeout (treated as success); an answer fails exactly
when it holds the `b"Authentication failed"` substring. -/
def authSucceeds (response : Option (List Nat)) : Bool :=
  match response with
  | none => true
  | some r => !containsSeq authFailPattern r

/-! ### Inactivity watchdog -/

/-- Default value of `inactivity_timeout` in crossbridge.load_config.  The
value is parsed from config and from the `--timeout` option but is never
handed to the bridge. -/
def defaultInactivityTimeout : Nat := 300

/-- The literal bound used by crossbridge.bridge_ppp_connection:
`if current_time - last_activity > 300:`. -/
def bridgeInactivityLimit : Nat := 300

/-- The watchdog test of crossbridge.bridge_ppp_connection, over the elapsed
seconds since the last activity (times are wall-clock seconds). -/
def watchdogFires (elapsed : Nat) : Bool := decide (bridgeInactivityLimit < elapsed)

/-! ### S-registers (modem_utils.CommandProcessor) -/

/-- The S-register table defaults set in CommandProcessor.__init__. -/
def sRegDefaults : List (Int × Int) :=
  [(0, 0), (1, 0), (2, 43), (3, 13), (4, 10), (5, 8), (6, 2), (7, 50),
   (8, 2), (9, 6), (10, 14), (11, 95), (12, 50)]

/-- Python dict lookup on the register table (later insertions shadow). -/
def regLookup : List (Int × Int) → Int → Option Int
  | [], _ => none
  | (k, v) :: rest, n => if k = n then some v else regLookup rest n

/-- Python dict assignment `self.s_registers[register_num] = value`, modelled
as a shadowing prepend. -/
def regInsert (regs : List (Int × Int)) (n v : Int) : List (Int × Int) :=
  (n, v) :: regs

/-- An ATS command after parsing its integers, as in
CommandProcessor._handle_s_register_command: `ATS<n>=<v>` (set), `ATS<n>?`
(query), or a bare `ATS<n>`. -/
inductive SRegCmd where
  | set (n v : Int)
  | query (n : Int)
  | bare
  deriving DecidableEq

/-- Python `"%03d" % v` / f-string `:03d`: decimal, zero-padded to total width
3 (the sign counts toward the width). -/
def fmt3 (v : Int) : String :=
  if v < 0 then
    let digits := toString (-v)
    "-" ++ String.mk (List.replicate (2 - digits.length) '0') ++ digits.toList.asString
  else
    let digits := toString v
    String.mk (List.replicate (3 - digits.length) '0') ++ digits.toList.asString

/-- modem_utils.CommandProcessor._handle_s_register_command on a parsed
command: `ATS<n>=<v>` stores `v` unchanged when `0 <= n <= 255` (else ERROR);
`ATS<n>?` answers the three-digit-formatted value then OK when the register is
present, else ERROR; a bare `ATS<n>` answers OK.  The responses are returned
in emission order. -/
def handle_s_register_command (regs : List (Int × Int)) :
    SRegCmd → List (Int × Int) × List String
  | .set n v =>
    if 0 ≤ n ∧ n ≤ 255 then (regInsert regs n v, ["OK"])
    else (regs, ["ERROR"])
  | .query n =>
    match regLookup regs n with
    | some v => (regs, [fmt3 v, "OK"])
    | none => (regs, ["ERROR"])
  | .bare => (regs, ["OK"])

/-! ### Endpoint writes -/

/-- serial_utils.TCPSocketConnection.write and crossbridge.TcpSocketSerial.write:
one call `self.sock.send(data)` whose return value is passed through, `0`
without a socket.  `send` is the operating-system call; a result below the
input length is a partial write the code does not retry. -/
def tcpSocketWrite (send : List Nat → Nat) (hasSocket : Bool) (data : List Nat) : Nat :=
  if hasSocket then send data else 0

/-- serial_utils.PhysicalSerialConnection.write: one call
`self.serial_port.write(data)` passed through, `0` without a port. -/
def physicalSerialWrite (portWrite : List Nat → Nat) (hasPort : Bool) (data : List Nat) : Nat :=
  if hasPort then portWrite data else 0

/-- serial_utils.SerialTransport.write: enqueue and return `len(data)`
unconditionally; raises (`none`) when not connected. -/
def serialTransportWrite (connected : Bool) (data : List Nat) : Option Nat :=
  if connected then some data.length else none

/-- A send behaviour allowed for sockets: deliver at most one byte per call. -/
def partialSend (l : List Nat) : Nat := min 1 l.length

/-! ### Connection-type table (modem_utils.CommandProcessor._determine_connection_type) -/

/-- The speed-band candidate lists of _determine_connection_type.  The source
is an if/elif chain ending at `speed <= 256000` with no else branch, so any
larger speed falls off the end and Python returns `None`. -/
def connection_type_bands (speed : Int) : Option (List String) :=
  if speed ≤ 9600 then some ["V.32", "V.22bis", "Bell 212A"]
  else if speed ≤ 14400 then some ["V.32bis", "V.17"]
  else if speed ≤ 28800 then some ["V.34", "V.FC"]
  else if speed ≤ 33600 then some ["V.34+", "K56flex"]
  else if speed ≤ 56000 then some ["V.90", "V.92", "PSTN", "Dialup"]
  else if speed ≤ 128000 then some ["ISDN", "ISDN-128", "BRI-ISDN"]
  else if speed ≤ 256000 then some ["ISDN-256"]
  else none

/-- _determine_connection_type with `random.choice` abstracted into `pick`
(any function choosing an element of a nonempty list). -/
def determine_connection_type (pick : List String → String) (speed : Int) : Option String :=
  (connection_type_bands speed).map pick

/-- The fields of CommandProcessor.__init__ relevant here:
`self.connection_type = self._determine_connection_type(connect_speed)`. -/
structure CommandProcessorInit where
  connect_speed : Int
  connection_type : Option String
  deriving DecidableEq

/-- CommandProcessor.__init__ (connection-type part). -/
def init_command_processor (pick : List String → String) (connect_speed : Int) :
    CommandProcessorInit :=
  { connect_speed := connect_speed
    connection_type := determine_connection_type pick connect_speed }

/-- ModemEmulator.__init__ stores
`connection_type = self.command_processor._determine_connection_type(connect_speed)`
into `self.connection_quality['connection_type']`. -/
structure ModemEmulatorInit where
  connection_type : Option String
  deriving DecidableEq

/-- ModemEmulator.__init__ (connection-quality part). -/
def init_modem_emulator (pick : List String → String) (connect_speed : Int) :
    ModemEmulatorInit :=
  { connection_type := determine_connection_type pick connect_speed }

/-- A concrete `random.choice` stand-in: the first element. -/
def head_pick (l : List String) : String := l.headD ""

/-! ### Dial handshake (modem_utils.ModemEmulator._handle_dial_command) -/

/-- Python `str.split(sep)` for a one-character separator, on decoded text. -/
def splitOnChar (c : Char) : List Char → List (List Char)
  | [] => [[]]
  | x :: xs =>
    match splitOnChar c xs with
    | [] => [[]]
    | grp :: rest => if x = c then [] :: grp :: rest else (x :: grp) :: rest

/-- ASCII whitespace as stripped by Python `str.strip()`. -/
def isSpaceChar (c : Char) : Bool :=
  c = ' ' || c = '\t' || c = '\n' || c = '\r' || c = '\x0b' || c = '\x0c'

/-- Python `str.strip()`: drop whitespace from both ends. -/
def stripChars (l : List Char) : List Char :=
  ((l.dropWhile isSpaceChar).reverse.dropWhile isSpaceChar).reverse

/-- The text `"NEGOTIATE:"` scanned for by modem_utils._speed_negotiation. -/
def negotiateTag : List Char := "NEGOTIATE:".data

/-- modem_utils._speed_negotiation, per line of a received chunk:
when the line holds `"NEGOTIATE:"`, split the stripped line on `":"`; with at
least two parts the negotiation succeeds with `(speed, type)` where the type
defaults to `"Unknown"`; otherwise keep scanning. -/
def negotiateLineParse (line : List Char) : Option (List Char × List Char) :=
  if containsSeq negotiateTag line then
    match splitOnChar ':' (stripChars line) with
    | _ :: speed :: rest =>
      some (stripChars speed,
        match rest with
        | t :: _ => stripChars t
        | [] => "Unknown".data)
    | _ => none
  else none

/-- modem_utils._speed_negotiation on one decoded chunk: when the chunk holds
`"NEGOTIATE:"`, the first line that parses wins. -/
def negotiateFromChunk (chunk : List Char) : Option (List Char × List Char) :=
  if containsSeq negotiateTag chunk then
    (splitOnChar '\n' chunk).findSome? negotiateLineParse
  else none

/-- modem_utils._speed_negotiation over the (decoded) chunks read before the
10-second deadline: the first chunk yielding a parse wins; `none` is the
negotiation timeout. -/
def speedNegotiationOutcome (chunks : List (List Char)) :
    Option (List Char × List Char) :=
  chunks.findSome? negotiateFromChunk

/-- The configuration read by _handle_dial_command and
_send_connection_sequence (`self.modem_config` plus the flags and
connection-quality values they consult). -/
structure DialConfig where
  username : String
  password : String
  connect_speed : Nat
  is_windows : Bool
  compression_enabled : Bool
  error_correction_enabled : Bool
  signal_strength : Nat
  line_quality : Nat
  connection_type : String
  deriving DecidableEq

/-- Observable actions of a dial attempt, in order: text written to the serial
side (its `.encode()` goes on the wire), bytes written to the socket, closing
the socket, and running the speed-negotiation read loop. -/
inductive DialEvent where
  | serialOut (text : String)
  | socketOut (bytes : List Nat)
  | socketClose
  | negotiationRun
  deriving DecidableEq

/-- The `connect_msg` f-string of _send_connection_sequence: the digits are
`self.modem_config.connect_speed` (the configured speed), and the optional
suffixes are the literal flags `" COMPRESSION"` and `" ERROR_CORRECTION"`. -/
def connectLine (cfg : DialConfig) : String :=
  "\r\nCONNECT " ++ toString cfg.connect_speed
    ++ (if cfg.compression_enabled then " COMPRESSION" else "")
    ++ (if cfg.error_correction_enabled then " ERROR_CORRECTION" else "")
    ++ "\r\n"

/-- modem_utils._send_connection_sequence: cosmetic progress lines (suppressed
on Windows) followed by the mandatory CONNECT line. -/
def connectionSequenceEvents (cfg : DialConfig) : List DialEvent :=
  (if cfg.is_windows then [] else
    [ .serialOut "\r\nDialing...\r\n",
      .serialOut "\r\nRinging...\r\n",
      .serialOut ("\r\nSignal Quality: " ++ toString cfg.signal_strength ++ "%\r\n"),
      .serialOut "\r\nCarrier detected\r\n",
      .serialOut ("\r\nLine Quality: " ++ toString cfg.line_quality ++ "%\r\n"),
      .serialOut ("\r\nConnection Type: " ++ cfg.connection_type ++ "\r\n") ])
  ++ [ .serialOut (connectLine cfg) ]

/-- Outcome of modem_utils._handle_dial_command. -/
structure DialResult where
  events : List DialEvent
  connected : Bool
  in_command_mode : Bool
  deriving DecidableEq

/-- The text of `b"\r\nNO CARRIER\r\n"`. -/
def noCarrierText : String := "\r\nNO CARRIER\r\n"

/-- modem_utils._handle_dial_command after the TCP connect succeeded:
authenticate (sending the credential line); on rejection close the socket and
write NO CARRIER; otherwise run _send_connection_sequence (which emits the
CONNECT line), then _speed_negotiation; on negotiation failure close and write
NO CARRIER; on success set `connected = True` and leave command mode. -/
def handle_dial_command (cfg : DialConfig) (authResponse : Option (List Nat))
    (negotiationChunks : List (List Char)) : DialResult :=
  let authEvents := [DialEvent.socketOut (authLineBytes cfg.username cfg.password)]
  if authSucceeds authResponse = false then
    { events := authEvents ++ [.socketClose, .serialOut noCarrierText]
      connected := false, in_command_mode := true }
  else
    let events := authEvents ++ connectionSequenceEvents cfg ++ [.negotiationRun]
    match speedNegotiationOutcome negotiationChunks with
    | none =>
      { events := events ++ [.socketClose, .serialOut noCarrierText]
        connected := false, in_command_mode := true }
    | some _ =>
      { events := events, connected := true, in_command_mode := false }

/-- crossbridge.emulate_modem dial path: on authentication success the only
response line is the hardcoded `b"\r\nCONNECT 33600\r\n"`; that path has no
speed negotiation at all. -/
def emulateModemConnectLine : String := "\r\nCONNECT 33600\r\n"

/-- A concrete configuration used to evaluate the dial model (default
connect_speed 33600, Windows flag set so the cosmetic lines are suppressed). -/
def sampleDialConfig : DialConfig :=
  { username := "u", password := "p", connect_speed := 33600, is_windows := true
    compression_enabled := false, error_correction_enabled := false
    signal_strength := 90, line_quality := 95, connection_type := "V.34+" }

/-! ## Helper lemmas -/

theorem containsSeq_iff [BEq α] [LawfulBEq α] (pat l : List α) :
    containsSeq pat l = true ↔ pat <:+: l := by
  induction l with
  | nil => simp [containsSeq]
  | cons x xs ih => simp [containsSeq, ih, List.infix_cons_iff]

theorem lastN_suffix (n : Nat) (l : List Nat) : lastN n l <:+ l :=
  List.drop_suffix _ _

theorem lastN_length (n : Nat) (l : List Nat) : (lastN n l).length = min n l.length := by
  simp [lastN]
  omega

theorem ppp_suffix_lastN {n : Nat} (hn : 3 ≤ n) (l : List Nat) :
    pppSeq <:+ lastN n l ↔ pppSeq <:+ l := by
  constructor
  · intro h
    exact h.trans (lastN_suffix n l)
  · intro h
    refine List.suffix_of_suffix_length_le h (lastN_suffix n l) ?_
    have h3 : 3 ≤ l.length := by simpa [pppSeq] using h.length_le
    rw [lastN_length]
    simp [pppSeq]
    omega

theorem suffix_append_right {s h : List Nat} (hs : s <:+ h) (d : List Nat) :
    s ++ d <:+ h ++ d := by
  obtain ⟨a, rfl⟩ := hs
  exact ⟨a, (List.append_assoc a s d).symm⟩

theorem suffix_eq_of_length {s t l : List Nat} (hs : s <:+ l) (ht : t <:+ l)
    (h : s.length = t.length) : s = t := by
  obtain ⟨a, rfl⟩ := hs
  obtain ⟨b, hb⟩ := ht
  have hlen : b.length = a.length := by
    have hl := congrArg List.length hb
    simp [List.length_append] at hl
    omega
  exact ((List.append_inj hb hlen).2).symm

theorem lastN_append_lastN (n : Nat) (h d : List Nat) :
    lastN n (lastN n h ++ d) = lastN n (h ++ d) := by
  apply suffix_eq_of_length (l := h ++ d)
  · exact (lastN_suffix n _).trans (suffix_append_right (lastN_suffix n h) d)
  · exact lastN_suffix n _
  · simp [lastN_length, List.length_append]
    omega

theorem escBufUpdate_eq (b d : List Nat) : escBufUpdate b d = lastN 20 (b ++ d) := by
  show (if (b ++ d).length > 20 then lastN 20 (b ++ d) else b ++ d) = lastN 20 (b ++ d)
  split
  · rfl
  · next hlen =>
    rw [List.length_append] at hlen
    simp only [lastN, List.length_append]
    rw [Nat.sub_eq_zero_of_le (by omega), List.drop_zero]

theorem rfindAux_some {p : Nat → Bool} :
    ∀ {n i : Nat}, rfindAux p n = some i → p i = true := by
  intro n
  induction n with
  | zero =>
    intro i h
    by_cases hp : p 0
    · simp only [rfindAux, hp, if_true, Option.some.injEq] at h
      exact h ▸ hp
    · simp only [rfindAux, hp, if_false] at h
      exact absurd h (by simp)
  | succ n ih =>
    intro i h
    by_cases hp : p (n + 1)
    · simp only [rfindAux, hp, if_true, Option.some.injEq] at h
      exact h ▸ hp
    · simp only [rfindAux, hp, if_false] at h
      exact ih h

theorem rfindAux_eq {p : Nat → Bool} :
    ∀ (n i : Nat), i ≤ n → p i = true → (∀ j, i < j → j ≤ n → p j = false) →
      rfindAux p n = some i := by
  intro n
  induction n with
  | zero =>
    intro i hi hp _
    have hz : i = 0 := by omega
    subst hz
    simp [rfindAux, hp]
  | succ n ih =>
    intro i hi hp hhigh
    by_cases hc : i = n + 1
    · subst hc
      simp [rfindAux, hp]
    · have hfalse : p (n + 1) = false := hhigh (n + 1) (by omega) (by omega)
      simp only [rfindAux, hfalse, Bool.false_eq_true, if_false]
      exact ih i (by omega) hp (fun j h1 h2 => hhigh j h1 (by omega))

theorem escapeTrigger_iff (buf : List Nat) :
    escapeTrigger buf = true ↔ pppSeq <:+ buf := by
  constructor
  · intro h
    unfold escapeTrigger at h
    split at h
    case isFalse => exact absurd h (by simp)
    case isTrue hin =>
      cases hr : rfindSeq buf pppSeq with
      | none =>
        rw [hr] at h
        exact absurd h (by simp)
      | some i =>
        rw [hr] at h
        simp only [decide_eq_true_eq, List.length_drop] at h
        unfold rfindSeq at hr
        have hp : pppSeq.isPrefixOf (buf.drop i) = true := rfindAux_some hr
        have hpre : pppSeq <+: buf.drop i := by simpa using hp
        have h3 : 3 ≤ buf.length - i := by
          simpa [pppSeq] using hpre.length_le
        have hlen : buf.length = i + 3 := by omega
        have hdl : (buf.drop i).length = pppSeq.length := by
          simp [pppSeq]
          omega
        have hdrop : buf.drop i = pppSeq := (hpre.eq_of_length hdl.symm).symm
        refine ⟨buf.take i, ?_⟩
        rw [← hdrop, List.take_append_drop]
  · intro hsuf
    have h3 : 3 ≤ buf.length := by simpa [pppSeq] using hsuf.length_le
    unfold escapeTrigger
    have hin : containsSeq pppSeq (lastN 10 buf) = true := by
      rw [containsSeq_iff]
      exact ((ppp_suffix_lastN (by omega) buf).mpr hsuf).isInfix
    rw [if_pos (by simpa using hin)]
    have hdrop : buf.drop (buf.length - 3) = pppSeq := by
      obtain ⟨a, ha⟩ := hsuf
      rw [← ha]
      have hl : (a ++ pppSeq).length - 3 = a.length := by
        rw [List.length_append]
        simp [pppSeq]
      rw [hl, List.drop_left]
    have hp : pppSeq.isPrefixOf (buf.drop (buf.length - 3)) = true := by
      rw [hdrop]
      simp
    have hnone : ∀ j, buf.length - 3 < j → j ≤ buf.length →
        pppSeq.isPrefixOf (buf.drop j) = false := by
      intro j h1 h2
      cases hx : pppSeq.isPrefixOf (buf.drop j) with
      | false => rfl
      | true =>
        exfalso
        have hpre : pppSeq <+: buf.drop j := by simpa using hx
        have hple := hpre.length_le
        simp [pppSeq, List.length_drop] at hple
        omega
    have hrf : rfindSeq buf pppSeq = some (buf.length - 3) := by
      unfold rfindSeq
      exact rfindAux_eq buf.length (buf.length - 3) (by omega) hp hnone
    rw [hrf]
    simp [List.length_drop]
    omega

/-! ## Claims -/

/-- C1: in crossbridge.bridge_ppp_connection (emulation-mode data bridging,
serial-to-TCP direction), one read step signals the return to command mode
exactly when the trailing 3 bytes of the serial input seen so far are `+++`
and no further serial bytes were waiting after the 1-second sleep (`quiet`);
a `+++` followed by more serial data in the quiet interval does not stop the
bridge.  The first conjunct maintains the buffer invariant: the escape buffer
is the 20-byte tail of the serial input seen so far. -/
theorem c1_theorem (history data : List Nat) (quiet : Bool) :
    escBufUpdate (lastN 20 history) data = lastN 20 (history ++ data) ∧
    (serialEscapeStep (lastN 20 history) data quiet = true ↔
      (pppSeq <:+ history ++ data ∧ quiet = true)) := by
  have hbuf : escBufUpdate (lastN 20 history) data = lastN 20 (history ++ data) := by
    rw [escBufUpdate_eq, lastN_append_lastN]
  refine ⟨hbuf, ?_⟩
  unfold serialEscapeStep
  rw [hbuf]
  simp only [Bool.and_eq_true, escapeTrigger_iff]
  rw [ppp_suffix_lastN (by omega)]

/-- C1 counterexample: the async emulator's serial-to-TCP direction
(modem_utils._bridge_serial_to_socket) enters command mode on the chunk
`b"+++A"` even though the trailing 3 bytes of the serial input are not `+++`
(and without any quiet interval), so the claimed "exactly when" condition is
false for it. -/
theorem c1_counterexample :
    (emuSerialToSocketStep [] [43, 43, 43, 65]).escaped = true ∧
    pppSeq.isSuffixOf [43, 43, 43, 65] = false := by decide

/-- C2: evaluating the bridge teardown on the escape-to-command outcome.
crossbridge.bridge_ppp_connection returns "COMMAND_MODE" after writing OK, and
emulate_modem then keeps `connected = true` and the socket reference — but the
bridge's `finally:` block has already closed the TCP socket on that very path
(socketClosed = true, so socketOpen = false afterwards), contradicting the
claim that the endpoint is left open for a later ATO.  The async emulator
(modem_utils) keeps the socket open on escape but sets `connected = false` and
emits no OK.  The final conjunct shows the socket is closed on every exit
path of bridge_ppp_connection. -/
theorem c2_theorem :
    (bridgeFinish .escapeQuiet).result = "COMMAND_MODE" ∧
    (bridgeFinish .escapeQuiet).serialWrites = [okBytes] ∧
    (bridgeFinish .escapeQuiet).socketClosed = true ∧
    (emulateModemAfterBridge .escapeQuiet).connected = true ∧
    (emulateModemAfterBridge .escapeQuiet).inCommandMode = true ∧
    (emulateModemAfterBridge .escapeQuiet).socketRef = true ∧
    (emulateModemAfterBridge .escapeQuiet).socketOpen = false ∧
    (emuBridgeFinish true).connected = false ∧
    (emuBridgeFinish true).socketClosed = false ∧
    (emuBridgeFinish true).serialWrites = [] ∧
    (∀ e : BridgeExit, (bridgeFinish e).socketClosed = true) := by
  refine ⟨by decide, by decide, by decide, by decide, by decide, by decide, by decide,
    by decide, by decide, by decide, ?_⟩
  intro e
  cases e <;> rfl

/-- C3 (amended): in crossbridge.bridge_ppp_connection's TCP-to-serial
direction, a single nonempty server read holding the 5-byte subsequence
`FF 03 C0 21 05` or `FF 03 C0 21 06` is forwarded to the serial side, followed
by `\r\nNO CARRIER\r\n`, and the loop stops. -/
theorem c3_theorem (data : List Nat) (hne : data ≠ [])
    (h : containsSeq lcpTermReq data = true ∨ containsSeq lcpTermAck data = true) :
    serverToSerialStep (some data) =
      { serialWrites := [data, noCarrierBytes], stop := true } := by
  cases data with
  | nil => exact absurd rfl hne
  | cons b rest =>
    unfold serverToSerialStep
    rcases h with h | h <;> simp [h]

/-- C3 witness: the concrete LCP Terminate-Request read
`FF 03 C0 21 05 00 00 04` is forwarded, NO CARRIER follows, and the loop
stops. -/
theorem c3_witness :
    (lcpTermReq ++ [0, 0, 4] ≠ [] ∧
      (containsSeq lcpTermReq (lcpTermReq ++ [0, 0, 4]) = true ∨
        containsSeq lcpTermAck (lcpTermReq ++ [0, 0, 4]) = true)) ∧
    serverToSerialStep (some (lcpTermReq ++ [0, 0, 4])) =
      { serialWrites := [lcpTermReq ++ [0, 0, 4], noCarrierBytes], stop := true } :=
  ⟨⟨by decide, by decide⟩, c3_theorem _ (by decide) (by decide)⟩

/-- C3 counterexample: the async bridge's TCP-to-serial direction
(modem_utils._bridge_socket_to_serial) performs no LCP scan: the same
Terminate-Request read is forwarded unchanged and the loop keeps running —
no NO CARRIER, no stop — so the claim is false for that direction. -/
theorem c3_counterexample :
    emuSocketToSerialStep consCodec (lcpTermReq ++ [0, 0, 4]) true =
      { serialWrites := [lcpTermReq ++ [0, 0, 4]], stop := false } ∧
    containsSeq lcpTermReq (lcpTermReq ++ [0, 0, 4]) = true := by decide

/-- C4 counterexample: the claimed 2-second read deadline is false at the
direct-mode handshake site: crossbridge.main runs `settimeout(5)` before the
credential `recv(1024)`. -/
theorem c4_counterexample :
    mainAuthRecvTimeout = 5 ∧ ¬mainAuthRecvTimeout = 2 := by decide

/-- C4 (amended): the handshake first sends exactly
`<username>:<password>\r\n`, reads up to 1024 bytes — under a 2-second
deadline at both emulation-mode sites but a 5-second deadline in
crossbridge.main — fails if and only if the reply holds the substring
`Authentication failed`, and treats a read timeout as success. -/
theorem c4_theorem :
    (∀ u p : String, authLineBytes u p =
      asciiBytes u ++ [58] ++ asciiBytes p ++ [13, 10]) ∧
    (∀ r : List Nat, authSucceeds (some r) = false ↔ containsSeq authFailPattern r = true) ∧
    authSucceeds none = true ∧
    emulatorAuthRecvTimeout = 2 ∧
    emulateModemAuthRecvTimeout = 2 ∧
    mainAuthRecvTimeout = 5 ∧
    authRecvLimit = 1024 := by
  refine ⟨?_, ?_, rfl, rfl, rfl, rfl, rfl⟩
  · intro u p
    have h1 : ":".data.map Char.toNat = [58] := by decide
    have h2 : "\r\n".data.map Char.toNat = [13, 10] := by decide
    simp [authLineBytes, asciiBytes, h1, h2]
  · intro r
    simp [authSucceeds]

/-- C6: evaluating the bridge inactivity watchdog.  The bridge compares the
idle time against the literal 300 regardless of the configured
`inactivity_timeout` (parsed but never passed to the bridge), so with a
configured timeout of 2 seconds and 3 seconds of silence it does not stop,
firing only beyond 300 seconds. -/
theorem c6_theorem :
    watchdogFires 3 = false ∧ watchdogFires 300 = false ∧ watchdogFires 301 = true ∧
    bridgeInactivityLimit = defaultInactivityTimeout := by decide

/-- C7 counterexample: `ATS7=1000` answers OK but stores 1000 itself rather
than 1000 mod 256 = 232, and the following `ATS7?` prints "1000" — four
digits — so the claimed mod-256 store (and three-digit print) is false. -/
theorem c7_counterexample :
    (handle_s_register_command sRegDefaults (.set 7 1000)).2 = ["OK"] ∧
    regLookup (handle_s_register_command sRegDefaults (.set 7 1000)).1 7 = some 1000 ∧
    (1000 : Int) % 256 = 232 ∧
    ¬(some (1000 : Int) = some ((1000 : Int) % 256)) ∧
    (handle_s_register_command
        (handle_s_register_command sRegDefaults (.set 7 1000)).1 (.query 7)).2 =
      ["1000", "OK"] := by decide

/-- C7 (amended): `ATS<n>=<v>` stores `v` unchanged (no mod 256) and answers
OK when `0 ≤ n ≤ 255`, else ERROR with the table unchanged; `ATS<n>?` answers
the %03d-formatted value then OK when register `n` is present, ERROR when
absent; a bare `ATS<n>` answers OK. -/
theorem c7_theorem (regs : List (Int × Int)) (n v : Int) :
    (0 ≤ n ∧ n ≤ 255 →
      handle_s_register_command regs (.set n v) = (regInsert regs n v, ["OK"]) ∧
      regLookup (regInsert regs n v) n = some v) ∧
    (¬(0 ≤ n ∧ n ≤ 255) →
      handle_s_register_command regs (.set n v) = (regs, ["ERROR"])) ∧
    (∀ w, regLookup regs n = some w →
      handle_s_register_command regs (.query n) = (regs, [fmt3 w, "OK"])) ∧
    (regLookup regs n = none →
      handle_s_register_command regs (.query n) = (regs, ["ERROR"])) ∧
    handle_s_register_command regs .bare = (regs, ["OK"]) := by
  refine ⟨?_, ?_, ?_, ?_, rfl⟩
  · intro h
    refine ⟨by simp [handle_s_register_command, h], ?_⟩
    simp [regLookup, regInsert]
  · intro h
    simp [handle_s_register_command, h]
  · intro w hw
    simp [handle_s_register_command, hw]
  · intro hw
    simp [handle_s_register_command, hw]

/-- C7 witness: the spec's own scenario — `ATS7=42` then `ATS7?` — stores 42
and prints `042` then OK. -/
theorem c7_witness :
    ((0 : Int) ≤ 7 ∧ (7 : Int) ≤ 255) ∧
    handle_s_register_command sRegDefaults (.set 7 42) = (regInsert sRegDefaults 7 42, ["OK"]) ∧
    regLookup (regInsert sRegDefaults 7 42) 7 = some 42 ∧
    handle_s_register_command (regInsert sRegDefaults 7 42) (.query 7) =
      (regInsert sRegDefaults 7 42, [fmt3 42, "OK"]) ∧
    fmt3 42 = "042" :=
  ⟨by decide,
   ((c7_theorem sRegDefaults 7 42).1 (by decide)).1,
   ((c7_theorem sRegDefaults 7 42).1 (by decide)).2,
   (c7_theorem (regInsert sRegDefaults 7 42) 7 0).2.2.1 42 (by decide),
   by decide⟩

/-- C8 counterexample: the round-trip claim is false: the 3-byte input
`1B 43 09` is shorter than 64 bytes so compress_data passes it through
unchanged, but decompress_data then sees the `1B 43` prefix, decodes the
remainder and returns a different byte sequence. -/
theorem c8_counterexample :
    compress_data consCodec true [27, 67, 9] = [27, 67, 9] ∧
    decompress_data consCodec (compress_data consCodec true [27, 67, 9]) = [] ∧
    ¬decompress_data consCodec (compress_data consCodec true [27, 67, 9]) = [27, 67, 9] := by
  decide

/-- C8 (amended): the pass-through rules hold as claimed (inputs under 64
bytes, disabled compression, or a compressed form at 80% or more of the
original pass unchanged; otherwise the `1B 43` prefix plus compressed payload
is emitted), and decompress∘compress is the identity for every input except a
passed-through one that itself begins with `1B 43` and whose remainder
decodes.  The hypothesis excludes exactly that case: an input starting with
`1B 43` must either take the compressed branch or have a remainder on which
`zlib.decompress` raises (whereupon decompress_data returns its input
unchanged). -/
theorem c8_theorem (z : Codec) (enabled : Bool) (d : List Nat)
    (h : d.take 2 = [27, 67] →
      (enabled = true ∧ 64 ≤ d.length ∧ 5 * (z.comp d).length < 4 * d.length) ∨
      z.decomp (d.drop 2) = none) :
    decompress_data z (compress_data z enabled d) = d ∧
    (d.length < 64 → compress_data z enabled d = d) ∧
    (enabled = false → compress_data z enabled d = d) ∧
    (enabled = true → 64 ≤ d.length → 4 * d.length ≤ 5 * (z.comp d).length →
      compress_data z enabled d = d) ∧
    (enabled = true → 64 ≤ d.length → 5 * (z.comp d).length < 4 * d.length →
      compress_data z enabled d = [27, 67] ++ z.comp d) := by
  have hdec_pass : ∀ l : List Nat, l.take 2 ≠ [27, 67] → decompress_data z l = l := by
    intro l hl
    unfold decompress_data
    by_cases h1 : l.length < 3
    · rw [if_pos h1]
    · rw [if_neg h1, if_neg hl]
  have hdec_fail : ∀ l : List Nat, z.decomp (l.drop 2) = none → decompress_data z l = l := by
    intro l hn
    unfold decompress_data
    by_cases h1 : l.length < 3
    · rw [if_pos h1]
    · rw [if_neg h1]
      by_cases h2 : l.take 2 = [27, 67]
      · rw [if_pos h2, hn]
      · rw [if_neg h2]
  have hdec_comp : decompress_data z ([27, 67] ++ z.comp d) = d := by
    have hlen : 1 ≤ (z.comp d).length := List.length_pos.mpr (z.comp_ne d)
    unfold decompress_data
    rw [if_neg (by simp only [List.length_append]; simp; omega),
      if_pos (show List.take 2 ([27, 67] ++ z.comp d) = [27, 67] from rfl)]
    rw [show List.drop 2 ([27, 67] ++ z.comp d) = z.comp d from rfl, z.decomp_comp]
  refine ⟨?_, ?_, ?_, ?_, ?_⟩
  · unfold compress_data
    split
    · next hcond =>
      by_cases ht : d.take 2 = [27, 67]
      · rcases h ht with ⟨he, hl, _⟩ | hnone
        · exfalso
          simp [he] at hcond
          omega
        · exact hdec_fail d hnone
      · exact hdec_pass d ht
    · next hcond =>
      split
      · exact hdec_comp
      · next hge =>
        by_cases ht : d.take 2 = [27, 67]
        · rcases h ht with ⟨_, _, hlt⟩ | hnone
          · exact absurd hlt hge
          · exact hdec_fail d hnone
        · exact hdec_pass d ht
  · intro h64
    unfold compress_data
    rw [if_pos (by simp [h64])]
  · intro he
    unfold compress_data
    rw [if_pos (by simp [he])]
  · intro he h64 hge
    unfold compress_data
    rw [if_neg (by simp only [he, Bool.not_true, Bool.false_or, decide_eq_true_eq]; omega),
      if_neg (by omega)]
  · intro he h64 hlt
    unfold compress_data
    rw [if_neg (by simp only [he, Bool.not_true, Bool.false_or, decide_eq_true_eq]; omega),
      if_pos hlt]

/-- C8 witness: the input `1B 43 00` is passed through (shorter than 64
bytes) and starts with `1B 43`, but its remainder fails to decode under
`tagCodec`, so the hypothesis holds by its right disjunct and the round trip
returns the input unchanged. -/
theorem c8_witness :
    (([27, 67, 0] : List Nat).take 2 = [27, 67] →
      (true = true ∧ 64 ≤ ([27, 67, 0] : List Nat).length ∧
        5 * (tagCodec.comp [27, 67, 0]).length < 4 * ([27, 67, 0] : List Nat).length) ∨
      tagCodec.decomp (([27, 67, 0] : List Nat).drop 2) = none) ∧
    decompress_data tagCodec (compress_data tagCodec true [27, 67, 0]) = [27, 67, 0] :=
  ⟨by decide, (c8_theorem tagCodec true [27, 67, 0] (by decide)).1⟩

/-- C9 counterexample: socket-backed writes are a single `send` with no retry
loop: with an operating system that delivers one byte per call (a legal
partial write), a 2-byte write returns 1, not the input length, so the
claimed internal retry is false. -/
theorem c9_counterexample :
    tcpSocketWrite partialSend true [7, 7] = 1 ∧
    partialSend [7, 7] ≤ ([7, 7] : List Nat).length ∧
    ¬tcpSocketWrite partialSend true [7, 7] = ([7, 7] : List Nat).length := by decide

/-- C9 (amended): TCP-backed writes return exactly the count of their single
send call — a partial send's count is returned as-is, with no internal
retry — and 0 without a socket; PhysicalSerialConnection.write passes through
pyserial's count; SerialTransport.write returns the input length
unconditionally after enqueueing, and raises when not connected. -/
theorem c9_theorem :
    (∀ (send : List Nat → Nat) (d : List Nat), tcpSocketWrite send true d = send d) ∧
    (∀ (send : List Nat → Nat) (d : List Nat), tcpSocketWrite send false d = 0) ∧
    (∀ (w : List Nat → Nat) (d : List Nat), physicalSerialWrite w true d = w d) ∧
    (∀ d : List Nat, serialTransportWrite true d = some d.length) ∧
    (∀ d : List Nat, serialTransportWrite false d = none) :=
  ⟨fun _ _ => rfl, fun _ _ => rfl, fun _ _ => rfl, fun _ => rfl, fun _ => rfl⟩

/-- C10: _determine_connection_type is total only up to 256000: any speed of
at most 256000 gets one of the fixed strings of its band, while any larger
speed falls off the if/elif chain and yields `None`, which propagates into
the `connection_type` stored by CommandProcessor.__init__ and
ModemEmulator.__init__. -/
theorem c10_theorem (pick : List String → String)
    (hpick : ∀ l : List String, l ≠ [] → pick l ∈ l) (speed : Int) :
    (speed ≤ 256000 →
      ∃ band, connection_type_bands speed = some band ∧ band ≠ [] ∧
        determine_connection_type pick speed = some (pick band) ∧ pick band ∈ band) ∧
    (256000 < speed →
      determine_connection_type pick speed = none ∧
      (init_command_processor pick speed).connection_type = none ∧
      (init_modem_emulator pick speed).connection_type = none) := by
  constructor
  · intro hle
    have hband : ∃ band, connection_type_bands speed = some band ∧ band ≠ [] := by
      unfold connection_type_bands
      split_ifs <;> exact ⟨_, rfl, by simp⟩
    obtain ⟨band, hb, hne⟩ := hband
    exact ⟨band, hb, hne, by simp [determine_connection_type, hb], hpick band hne⟩
  · intro hgt
    have hnone : connection_type_bands speed = none := by
      unfold connection_type_bands
      split_ifs <;> first | omega | rfl
    refine ⟨?_, ?_, ?_⟩ <;>
      simp [determine_connection_type, init_command_processor, init_modem_emulator, hnone]

/-- C10 witness: with random.choice realised as taking the first candidate,
speed 300000 yields no connection type (and that None is what the
constructors store), while speed 33600 yields a member of its band. -/
theorem c10_witness :
    (∀ l : List String, l ≠ [] → head_pick l ∈ l) ∧
    determine_connection_type head_pick 300000 = none ∧
    (init_command_processor head_pick 300000).connection_type = none ∧
    (∃ band, connection_type_bands 33600 = some band ∧ band ≠ [] ∧
      determine_connection_type head_pick 33600 = some (head_pick band) ∧
      head_pick band ∈ band) := by
  have hp : ∀ l : List String, l ≠ [] → head_pick l ∈ l := by
    intro l hl
    cases l with
    | nil => exact absurd rfl hl
    | cons a t => simp [head_pick]
  refine ⟨hp, ?_, ?_, ?_⟩
  · exact ((c10_theorem head_pick hp 300000).2 (by decide)).1
  · exact ((c10_theorem head_pick hp 300000).2 (by decide)).2.1
  · exact (c10_theorem head_pick hp 33600).1 (by decide)

/-- C5 (amended): on a dial whose authentication and speed negotiation both
succeed, the modem ends connected, and the CONNECT line — whose digits are the
configured `connect_speed` and whose optional suffixes are the literal flags
`" COMPRESSION"` / `" ERROR_CORRECTION"` — is the last serial output, emitted
immediately before the negotiation loop runs (which had not run earlier): the
negotiated speed plays no part in the line. -/
theorem c5_theorem (cfg : DialConfig) (authResponse : Option (List Nat))
    (negotiationChunks : List (List Char))
    (hA : authSucceeds authResponse = true)
    (hN : (speedNegotiationOutcome negotiationChunks).isSome = true) :
    (handle_dial_command cfg authResponse negotiationChunks).connected = true ∧
    (handle_dial_command cfg authResponse negotiationChunks).in_command_mode = false ∧
    ∃ pre,
      (handle_dial_command cfg authResponse negotiationChunks).events =
        pre ++ [DialEvent.serialOut (connectLine cfg), DialEvent.negotiationRun] ∧
      DialEvent.negotiationRun ∉ pre := by
  have hfalse : ¬(authSucceeds authResponse = false) := by simp [hA]
  unfold handle_dial_command
  rw [if_neg hfalse]
  cases hout : speedNegotiationOutcome negotiationChunks with
  | none =>
    rw [hout] at hN
    exact absurd hN (by simp)
  | some v =>
    simp only [hout]
    refine ⟨by trivial, by trivial, ?_⟩
    by_cases hw : cfg.is_windows
    · refine ⟨[DialEvent.socketOut (authLineBytes cfg.username cfg.password)], ?_, by simp⟩
      simp [connectionSequenceEvents, hw]
    · refine ⟨[DialEvent.socketOut (authLineBytes cfg.username cfg.password)] ++
        [ DialEvent.serialOut "\r\nDialing...\r\n",
          DialEvent.serialOut "\r\nRinging...\r\n",
          DialEvent.serialOut ("\r\nSignal Quality: " ++ toString cfg.signal_strength ++ "%\r\n"),
          DialEvent.serialOut "\r\nCarrier detected\r\n",
          DialEvent.serialOut ("\r\nLine Quality: " ++ toString cfg.line_quality ++ "%\r\n"),
          DialEvent.serialOut ("\r\nConnection Type: " ++ cfg.connection_type ++ "\r\n") ],
        ?_, by simp⟩
      simp [connectionSequenceEvents, hw]

/-- C5 witness: a concrete successful dial (auth reply silent, server sends
`NEGOTIATE:28800:V.34`) ends connected with the CONNECT line last before the
negotiation run. -/
theorem c5_witness :
    (authSucceeds none = true ∧
      (speedNegotiationOutcome ["NEGOTIATE:28800:V.34\n".data]).isSome = true) ∧
    (handle_dial_command sampleDialConfig none ["NEGOTIATE:28800:V.34\n".data]).connected = true ∧
    ∃ pre,
      (handle_dial_command sampleDialConfig none ["NEGOTIATE:28800:V.34\n".data]).events =
        pre ++ [DialEvent.serialOut (connectLine sampleDialConfig), DialEvent.negotiationRun] ∧
      DialEvent.negotiationRun ∉ pre :=
  ⟨⟨by decide, by decide⟩,
   (c5_theorem sampleDialConfig none ["NEGOTIATE:28800:V.34\n".data] (by decide) (by decide)).1,
   (c5_theorem sampleDialConfig none ["NEGOTIATE:28800:V.34\n".data] (by decide) (by decide)).2.2⟩

/-- C5 counterexample: the claim is false at this concrete dial: the server's
NEGOTIATE line carries speed 28800, yet the emitted line is
`\r\nCONNECT 33600\r\n` (the configured speed) and it is written before the
negotiation loop ever runs; the crossbridge sync path likewise hardcodes
`CONNECT 33600`. -/
theorem c5_counterexample :
    speedNegotiationOutcome ["NEGOTIATE:28800:V.34\n".data] =
      some ("28800".data, "V.34".data) ∧
    (handle_dial_command sampleDialConfig none ["NEGOTIATE:28800:V.34\n".data]).events =
      [DialEvent.socketOut (authLineBytes "u" "p"),
       DialEvent.serialOut "\r\nCONNECT 33600\r\n",
       DialEvent.negotiationRun] ∧
    connectLine sampleDialConfig = "\r\nCONNECT 33600\r\n" ∧
    ¬("33600" = "28800") ∧
    emulateModemConnectLine = "\r\nCONNECT 33600\r\n" := by decide

end Crossbridge
